import Mathlib

/-!
Verification development for the PyTorch block-sparse matrix-multiplication
extension.  The embedding below follows `src/native/sparse_matmul_gpu.cu`
(the `sparse_matmul` dispatcher and the `sparse_matmul_sdd_32x32x8_kernel`
compute kernel) line by line.  The tile-transfer engine (`tiling_utils.cuh`)
and the sparse-layout decoder (`layout_utils.cuh`) are not part of the
sources; they are modelled from the specification where noted.

Numeric values are embedded as `Int`.  All concrete inputs used below carry
small integer values, for which the single-precision float computation of the
source is exact, so exact integer equality faithfully represents equality
"within floating-point tolerance".  Machine `uint` arithmetic is embedded as
`Nat`; no concrete input below approaches `2^32`, and truncated subtraction
only arises for the table-length expression, which every settled claim guards
with a nonempty table.
-/

namespace BlockSparse

/-- Flat global-memory buffer, as the kernel sees `matrix_a`/`matrix_b`.
An out-of-range index yields 0 (a read the CUDA source would perform out of
bounds; no settled statement depends on the value of such a read). -/
abbrev Buf := Nat → Int

/-- Element lookup in a list with default, mirroring raw pointer indexing. -/
def listGetD : List Nat → Nat → Nat → Nat
  | [], _, d => d
  | a :: _, 0, _ => a
  | _ :: l, n + 1, d => listGetD l n d

/-- Element lookup returning an `Option`, used for `std::string::at`. -/
def listNth {α : Type} : List α → Nat → Option α
  | [], _ => none
  | a :: _, 0 => some a
  | _ :: l, n + 1 => listNth l n

/-- Product of a shape list (`numel` of a tensor of this shape). -/
def prodL (l : List Nat) : Nat := l.prod

/-- Layout tensors handed to the dispatcher: the flat block list (two 16-bit
entries per non-zero 32x32 tile, as in `std::get<0>(layout).size(0) / 2`)
and the row/column offset table. -/
structure LayoutTensors where
  blocksFlat : List Nat
  table : List Nat
deriving DecidableEq

/-- Modelled from the spec: a resolved block of `layout_utils.cuh`
(missing from the sources) carries its tile row, tile column and its linear
position `idx` within the block list. -/
structure SparseBlock where
  row : Nat
  col : Nat
  idx : Nat
deriving DecidableEq

/-- Modelled from the spec: `sparse_layout::get(i)` of `layout_utils.cuh`
(missing from the sources) returns the i-th block-list entry `(row, col)`
together with its linear index `i`. -/
def layoutGet (L : LayoutTensors) (i : Nat) : SparseBlock :=
  ⟨listGetD L.blocksFlat (2 * i) 0, listGetD L.blocksFlat (2 * i + 1) 0, i⟩

/-- Arguments of the pipeline-priming prefetch for operand A, exactly as the
kernel source passes them:
`loader_a.prefetch(ptr, trans_a ? 0 : m, trans_a ? m : 0, trans_a ? size_m : size_k)`. -/
def primeArgsA (m size_m size_k : Nat) (ta : Bool) : Nat × Nat × Nat :=
  (if ta then 0 else m, if ta then m else 0, if ta then size_m else size_k)

/-- Arguments of the pipeline-priming prefetch for operand B, exactly as the
kernel source passes them:
`loader_b.prefetch(ptr, trans_b ? n : 0, trans_b ? 0 : n, trans_b ? size_k : size_n)`. -/
def primeArgsB (n size_n size_k : Nat) (tb : Bool) : Nat × Nat × Nat :=
  (if tb then n else 0, if tb then 0 else n, if tb then size_k else size_n)

/-- Arguments of the in-loop (next-step) prefetch for operand A, exactly as
the kernel source passes them:
`loader_a.prefetch(ptr, trans_a ? size_m : size_k, trans_a ? k + 8 : m, trans_a ? m : k + 8)`. -/
def loopArgsA (m k size_m size_k : Nat) (ta : Bool) : Nat × Nat × Nat :=
  (if ta then size_m else size_k, if ta then k + 8 else m, if ta then m else k + 8)

/-- Arguments of the in-loop (next-step) prefetch for operand B, exactly as
the kernel source passes them:
`loader_b.prefetch(ptr, trans_b ? size_k : size_n, trans_b ? n : k + 8, trans_b ? k + 8 : n)`. -/
def loopArgsB (n k size_n size_k : Nat) (tb : Bool) : Nat × Nat × Nat :=
  (if tb then size_k else size_n, if tb then n else k + 8, if tb then k + 8 else n)

/-- Modelled from the spec: `tile<..>::loader::prefetch` of `tiling_utils.cuh`
(missing from the sources) takes `(row_origin, col_origin, leading_dimension)`
after the source pointer and stages the addressed slab, element `(r, c)` of
the slab living at flat offset `(row_origin + r) * ld + (col_origin + c)`. -/
def prefetchSlab (buf : Buf) (args : Nat × Nat × Nat) : Nat → Nat → Int :=
  fun r c => buf ((args.1 + r) * args.2.2 + (args.2.1 + c))

/-- Modelled from the spec: reading the committed shared-storage slab.  The
loader's constructor flag records whether the slab is stored transposed
(8x32 rather than 32x8); a transposed slab is read with its two indices
swapped, so that `get` always yields the logical operand element. -/
def loaderGet (t : Bool) (staged : Nat → Nat → Int) (x y : Nat) : Int :=
  if t then staged y x else staged x y

/-- Buffer shifted by a flat batch offset (`matrix_a + offset_a`). -/
def shiftBuf (b : Buf) (off : Nat) : Buf := fun p => b (off + p)

/-- One thread's accumulator over the remaining K steps of the kernel loop.
Each iteration consumes the currently staged slabs (committed to shared
storage at the top of the source loop), then, when a further step exists,
restages via the in-loop prefetch argument lists `loopArgsA`/`loopArgsB`.
The double-buffer parity indexing of the source has no observable effect in
this sequential semantics and is elided.  The eight multiply-accumulates per
step fold left in ascending `i`, matching the unrolled source loop. -/
def kStep (ta tb : Bool) (aB bB : Buf) (m n size_m size_n size_k : Nat)
    (lane col : Nat) :
    Nat → Nat → (Nat → Nat → Int) → (Nat → Nat → Int) → Int → Int
  | 0, _, _, _, acc => acc
  | rem + 1, k, sa, sb, acc =>
    let acc' := (List.range 8).foldl
      (fun t i => t + loaderGet ta sa lane i * loaderGet (!tb) sb col i) acc
    let sa' := if k + 8 < size_k then prefetchSlab aB (loopArgsA m k size_m size_k ta) else sa
    let sb' := if k + 8 < size_k then prefetchSlab bB (loopArgsB n k size_n size_k tb) else sb
    kStep ta tb aB bB m n size_m size_n size_k lane col rem (k + 8) sa' sb' acc'

/-- Final accumulator of the kernel thread `(lane, warp)` for output column
`col = warp * 4 + j`: primes the pipeline with `primeArgsA`/`primeArgsB`
and runs the K loop (`for (k = 0; k < size_k; k += 8)`). -/
def sddThreadVal (aB bB : Buf) (m n size_m size_n size_k : Nat)
    (ta tb : Bool) (lane col : Nat) : Int :=
  kStep ta tb aB bB m n size_m size_n size_k lane col ((size_k + 7) / 8) 0
    (prefetchSlab aB (primeArgsA m size_m size_k ta))
    (prefetchSlab bB (primeArgsB n size_n size_k tb))
    0

/-- All `(address, value)` pairs written by the work-group at grid position
`(bx, b2)` of `sparse_matmul_sdd_32x32x8_kernel`: block `layout.get(bx)`,
batch `b2`, 256 threads, each writing its four accumulator entries to
`offset_c + lane * 32 + (warp * 4 + i)`. -/
def wgWrites (aB bB : Buf) (L : LayoutTensors)
    (num_blocks size_m size_n size_k : Nat) (ta tb : Bool)
    (bx b2 : Nat) : List (Nat × Int) :=
  let blk := layoutGet L bx
  let m := blk.row * 32
  let n := blk.col * 32
  let offA := b2 * size_m * size_k
  let offB := b2 * size_k * size_n
  let offC := (b2 * num_blocks + blk.idx) * (32 * 32)
  (List.range 256).flatMap fun tid =>
    (List.range 4).map fun i =>
      (offC + tid % 32 * 32 + (tid / 32 * 4 + i),
       sddThreadVal (shiftBuf aB offA) (shiftBuf bB offB) m n
         size_m size_n size_k ta tb (tid % 32) (tid / 32 * 4 + i))

/-- Mode selector "sdd". -/
def sddM : List Char := ['s', 'd', 'd']

/-- Mode selector "dsd". -/
def dsdM : List Char := ['d', 's', 'd']

/-- Mode selector "dds". -/
def ddsM : List Char := ['d', 'd', 's']

/-- Launch grid used by the dispatcher: `dim3(num_blocks, num_batches)` for
SDD, `dim3(num_batches, ceil(size_m/32), ceil(size_n/32))` otherwise. -/
def launchGrid (mode : List Char) (num_blocks num_batches size_m size_n : Nat) :
    Nat × Nat × Nat :=
  if mode = sddM then (num_blocks, num_batches, 1)
  else (num_batches, (size_m + 32 - 1) / 32, (size_n + 32 - 1) / 32)

/-- Writes of the whole launch: the kernel runs once per grid cell.  It reads
only `blockIdx.x` and `blockIdx.y`; the third grid extent merely multiplies
the set of launched work-groups. -/
def launchWrites (grid : Nat × Nat × Nat) (aB bB : Buf) (L : LayoutTensors)
    (num_blocks size_m size_n size_k : Nat) (ta tb : Bool) :
    List (Nat × Int) :=
  (List.range grid.1).flatMap fun bx =>
    (List.range grid.2.1).flatMap fun b2 =>
      (List.range grid.2.2).flatMap fun _ =>
        wgWrites aB bB L num_blocks size_m size_n size_k ta tb bx b2

/-- Contents of the freshly allocated output buffer after the launch: each
position takes the value of a write to it (duplicate writers of one address
in this code write the value of an identical computation), an unwritten
position keeps its unspecified allocation value, represented by 0. -/
def launchOutputData (numel : Nat) (writes : List (Nat × Int)) : List Int :=
  (List.range numel).map fun p =>
    ((writes.find? fun w => w.1 = p).map Prod.snd).getD 0

/-- Errors surfaced by the host-side dispatcher path.  `outOfRange` is the
`std::out_of_range` thrown by `std::string::at`; `dimError` the dimension
range check of `Tensor::size`; `flattenError` and `reshapeError` the
corresponding tensor-library failures. -/
inductive SpError
  | outOfRange
  | dimError
  | flattenError
  | reshapeError
deriving DecidableEq

/-- Host tensor: shape plus flat row-major data. -/
structure Tensor where
  shape : List Nat
  data : List Int
deriving DecidableEq

/-- Rank of a tensor. -/
def Tensor.rank (t : Tensor) : Nat := t.shape.length

/-- Number of elements. -/
def Tensor.numel (t : Tensor) : Nat := prodL t.shape

/-- Kernel-side view of a tensor's storage. -/
def bufOf (l : List Int) : Buf := fun p => l.getD p 0

/-- Extent of the k-th axis from the end (`t.size(-k)`); out-of-range axes
raise a dimension error exactly as the tensor library does. -/
def Tensor.sizeFromEnd (t : Tensor) (k : Nat) : Except SpError Nat :=
  if 1 ≤ k ∧ k ≤ t.shape.length then
    .ok (listGetD t.shape (t.shape.length - k) 0)
  else .error .dimError

/-- View merging all leading axes into one, keeping the trailing `k` axes
(`t.flatten(0, -(k+1))`); requires rank at least `k + 1`. -/
def Tensor.flattenKeep (t : Tensor) (k : Nat) : Except SpError Tensor :=
  if k + 1 ≤ t.shape.length then
    .ok ⟨[prodL (t.shape.take (t.shape.length - k))] ++
           t.shape.drop (t.shape.length - k), t.data⟩
  else .error .flattenError

/-- View with a new shape (`t.reshape(s)`); requires an unchanged element
count, as the tensor library enforces. -/
def Tensor.reshape (t : Tensor) (s : List Nat) : Except SpError Tensor :=
  if t.numel = prodL s then .ok ⟨s, t.data⟩ else .error .reshapeError

/-- Read of `mode.at(i)`: `std::string::at` throws `std::out_of_range` for an
index past the end. -/
def charAt (mode : List Char) (i : Nat) : Except SpError Char :=
  match listNth mode i with
  | some c => .ok c
  | none => .error .outOfRange

/-- Host dispatcher `sparse_matmul` of `sparse_matmul_gpu.cu`, embedded
step by step in source order: layout selection, dimension-size derivation
(reading `mode.at(1)`, `mode.at(2)`, `mode.at(0)` in the order the source
first evaluates them), output-shape construction, batch flattening, output
allocation, grid sizing, the kernel launch (the source's kernel ternary
selects `sparse_matmul_sdd_32x32x8_kernel` in all three arms), and the final
batch-restoring reshape. -/
def sparse_matmul (a b : Tensor) (mode : List Char)
    (row_layout col_layout : LayoutTensors) (ta tb : Bool) :
    Except SpError Tensor := do
  let layout := if mode = sddM ∨ (mode = dsdM ∧ ta = false)
                   ∨ (mode = ddsM ∧ tb = true) then row_layout else col_layout
  let num_blocks := layout.blocksFlat.length / 2
  let sparse_width := (layout.table.length - 1) * 32
  let c1 ← charAt mode 1
  let size_m ← (if c1 = 'd' then a.sizeFromEnd (if ta then 1 else 2)
                else .ok sparse_width : Except SpError Nat)
  let c2 ← charAt mode 2
  let size_n ← (if c2 = 'd' then b.sizeFromEnd (if tb then 2 else 1)
                else .ok sparse_width : Except SpError Nat)
  let size_k ← (if c2 = 'd' then b.sizeFromEnd (if tb then 1 else 2)
                else a.sizeFromEnd (if ta then 2 else 1) : Except SpError Nat)
  let dense := if c1 = 'd' then a else b
  let c0 ← charAt mode 0
  let shape := dense.shape.take (dense.rank - 2) ++
               (if c0 = 'd' then [size_m, size_n] else [num_blocks, 32, 32])
  let a' ← a.flattenKeep (if c1 = 'd' then 2 else 3)
  let b' ← b.flattenKeep (if c2 = 'd' then 2 else 3)
  let num_batches := a'.shape.headD 0
  let cShape := if c0 = 'd' then [num_batches, size_m, size_n]
                else [num_batches, num_blocks, 32, 32]
  let grid := launchGrid mode num_blocks num_batches size_m size_n
  let c : Tensor := ⟨cShape,
    launchOutputData (prodL cShape)
      (launchWrites grid (bufOf a'.data) (bufOf b'.data) layout
        num_blocks size_m size_n size_k ta tb)⟩
  c.reshape shape

/-- Character of the mode string at position `i`, with a default for the
total reading of density letters. -/
def modeCharD (mode : List Char) (i : Nat) : Char := (listNth mode i).getD 'z'

/-- Boolean success test on the dispatcher result. -/
def exceptIsOk : Except SpError Tensor → Bool
  | .ok _ => true
  | .error _ => false

/-- The dispatcher re-expressed over three explicit density flags, one for
the output, one for operand A and one for operand B.  The computation is the
one of `sparse_matmul` with every read of `mode.at(1)` replaced by `aDense`,
every read of `mode.at(2)` by `bDense`, every read of `mode.at(0)` by
`outDense`, and the two whole-string comparisons replaced by the equivalent
flag tests (SDD is the mode whose output is sparse and whose operands are
both dense). -/
def dispatchByDensity (a b : Tensor) (outDense aDense bDense : Bool)
    (row_layout col_layout : LayoutTensors) (ta tb : Bool) :
    Except SpError Tensor := do
  let layout := if (outDense = false ∧ aDense = true ∧ bDense = true)
                   ∨ (aDense = false ∧ ta = false) ∨ (bDense = false ∧ tb = true)
                then row_layout else col_layout
  let num_blocks := layout.blocksFlat.length / 2
  let sparse_width := (layout.table.length - 1) * 32
  let size_m ← (if aDense = true then a.sizeFromEnd (if ta then 1 else 2)
                else .ok sparse_width : Except SpError Nat)
  let size_n ← (if bDense = true then b.sizeFromEnd (if tb then 2 else 1)
                else .ok sparse_width : Except SpError Nat)
  let size_k ← (if bDense = true then b.sizeFromEnd (if tb then 1 else 2)
                else a.sizeFromEnd (if ta then 2 else 1) : Except SpError Nat)
  let dense := if aDense = true then a else b
  let shape := dense.shape.take (dense.rank - 2) ++
               (if outDense = true then [size_m, size_n] else [num_blocks, 32, 32])
  let a' ← a.flattenKeep (if aDense = true then 2 else 3)
  let b' ← b.flattenKeep (if bDense = true then 2 else 3)
  let num_batches := a'.shape.headD 0
  let cShape := if outDense = true then [num_batches, size_m, size_n]
                else [num_batches, num_blocks, 32, 32]
  let grid := if (outDense = false ∧ aDense = true ∧ bDense = true)
              then (num_blocks, num_batches, 1)
              else (num_batches, (size_m + 32 - 1) / 32, (size_n + 32 - 1) / 32)
  let c : Tensor := ⟨cShape,
    launchOutputData (prodL cShape)
      (launchWrites grid (bufOf a'.data) (bufOf b'.data) layout
        num_blocks size_m size_n size_k ta tb)⟩
  c.reshape shape

/-- Reference entry `(i, j)` of the ordinary dense product of `A` (given as
an index function) with `B` over reduction length `K`. -/
def denseMatmulEntry (A B : Nat → Nat → Int) (K i j : Nat) : Int :=
  ((List.range K).map fun k => A i k * B k j).sum

/-- Row-major flat storage of a dense matrix. -/
def flatMat (A : Nat → Nat → Int) (rows cols : Nat) : List Int :=
  (List.range (rows * cols)).map fun p => A (p / cols) (p % cols)

/-- Block-sparse storage of a fully dense single-tile-row matrix: tile `t`
of a 32-row matrix holds the columns `32 t .. 32 t + 31`, each tile stored
as a row-major 32x32 block. -/
def packFullRow (A : Nat → Nat → Int) (tiles : Nat) : List Int :=
  (List.range (tiles * 1024)).map fun p =>
    A (p % 1024 / 32) (p / 1024 * 32 + p % 32)

/-- Dense view of the C1 left operand: `A[i][k] = k` (32 rows, 64 cols). -/
def aC1dense : Nat → Nat → Int := fun _ k => (k : Int)

/-- Dense C1 right operand: `B[k][j] = k + 1` in column 0, else 0. -/
def bC1dense : Nat → Nat → Int := fun k j => if j = 0 then (k : Int) + 1 else 0

/-- Fully dense row layout of a 32x64 sparse operand: blocks (0,0), (0,1). -/
def rlC1 : LayoutTensors := ⟨[0, 0, 0, 1], [0, 2]⟩

/-- C1 left operand in block-sparse form, batch 1. -/
def aC1 : Tensor := ⟨[1, 2, 32, 32], packFullRow aC1dense 2⟩

/-- C1 right operand, dense 64x32, batch 1. -/
def bC1 : Tensor := ⟨[1, 64, 32], flatMat bC1dense 64 32⟩

/-- Dense C2 left operand: `A[i][k] = 16 i + k` (32 rows, 16 cols). -/
def aC2dense : Nat → Nat → Int := fun i k => (16 * i + k : Nat)

/-- Dense C2 right operand: `B[k][j] = 32 k + j + 1` (16 rows, 32 cols). -/
def bC2dense : Nat → Nat → Int := fun k j => (32 * k + j + 1 : Nat)

/-- Single-block layout: block (0, 0) only. -/
def rlC2 : LayoutTensors := ⟨[0, 0], [0, 1]⟩

/-- C2 left operand, dense 32x16 (so `size_k = 16`, two K steps), batch 1. -/
def aC2 : Tensor := ⟨[1, 32, 16], flatMat aC2dense 32 16⟩

/-- C2 right operand, dense 16x32, batch 1. -/
def bC2 : Tensor := ⟨[1, 16, 32], flatMat bC2dense 16 32⟩

/-- Fully dense row layout of a 64x32 sparse operand: blocks (0,0), (1,0). -/
def rlC3 : LayoutTensors := ⟨[0, 0, 1, 0], [0, 1, 2]⟩

/-- C3 left operand: block-sparse 64x32, batch 1 (values irrelevant to the
write-address computation). -/
def aC3 : Tensor := ⟨[1, 2, 32, 32], []⟩

/-- C3 right operand: dense 32x64, batch 1. -/
def bC3 : Tensor := ⟨[1, 32, 64], []⟩

/-- Addresses written by the full DSD launch of the C3 configuration, with
the grid exactly as the dispatcher sizes it for this call
(`num_blocks = 2`, `num_batches = 1`, `size_m = size_n = 64`, `size_k = 32`). -/
def c3Addrs : List Nat :=
  (launchWrites (launchGrid dsdM 2 1 64 64) (bufOf aC3.data) (bufOf bC3.data)
    rlC3 2 64 64 32 false false).map Prod.fst

/-- Generic single-block layout used by the error-path inputs. -/
def rlE : LayoutTensors := ⟨[0, 0], [0, 1]⟩

/-- C4 operands: well-formed rank-4 tensors, so that nothing but the mode
string could be objected to. -/
def aC4 : Tensor := ⟨[1, 1, 32, 32], []⟩

/-- C4 right operand. -/
def bC4 : Tensor := ⟨[1, 1, 32, 32], []⟩

/-- C7 left operand: reduction extent 16. -/
def aC7 : Tensor := ⟨[1, 32, 16], []⟩

/-- C7 right operand: reduction extent 64, disagreeing with `aC7`. -/
def bC7 : Tensor := ⟨[1, 64, 32], []⟩

/-- C6 operands: rank-3 dense tensors for a recognized SDD call. -/
def aC6 : Tensor := ⟨[1, 32, 32], []⟩

/-- C6 right operand. -/
def bC6 : Tensor := ⟨[1, 32, 32], []⟩

/-- Empty layout (no non-zero blocks), keeping the C6 evaluation small. -/
def rlC6 : LayoutTensors := ⟨[], [0]⟩

/-- C10 left operand of rank 1. -/
def aC10 : Tensor := ⟨[5], []⟩

/-- C10 right operand. -/
def bC10 : Tensor := ⟨[1, 32, 32], []⟩

/-- Trailing-axis extent `t.size(-k)` as a total function, for stating the
expected shapes of C8. -/
def lastDim (t : Tensor) (k : Nat) : Nat := listGetD t.shape (t.shape.length - k) 0

/-- Output shape asserted by claim C8: the dense operand's leading batch
dimensions followed by the mode-specific trailing shape — `(num_blocks, 32,
32)` for SDD with `num_blocks` half the block-list length, `(total_m,
total_n)` for DSD/DDS with the sparse-operand dimension `(table length - 1)
* 32` (table of the layout selected by the transpose flag) and the
dense-operand dimension read from the trailing two axes, row/column swapped
under the corresponding transpose flag. -/
def expectedC8 (mode : List Char) (a b : Tensor) (rl cl : LayoutTensors)
    (ta tb : Bool) : List Nat :=
  if mode = sddM then
    a.shape.take (a.rank - 2) ++ [rl.blocksFlat.length / 2, 32, 32]
  else if mode = dsdM then
    b.shape.take (b.rank - 2) ++
      [((if ta then cl else rl).table.length - 1) * 32, lastDim b (if tb then 2 else 1)]
  else
    a.shape.take (a.rank - 2) ++
      [lastDim a (if ta then 1 else 2), ((if tb then rl else cl).table.length - 1) * 32]

/-- Validity of a call for claim C8: a recognized mode, operands of the rank
the mode requires (dense operands rank at least 3, the sparse operand rank
at least 4) with at least one leading batch axis each, and agreeing flattened
batch sizes. -/
def C8Valid (mode : List Char) (a b : Tensor) : Prop :=
  (mode = sddM ∧ (∃ la u v, a.shape = la ++ [u, v] ∧ la ≠ []) ∧
    (∃ lb u v, b.shape = lb ++ [u, v] ∧ lb ≠ []))
  ∨ (mode = dsdM ∧ ∃ la lb p q r u v, a.shape = la ++ [p, q, r] ∧
      b.shape = lb ++ [u, v] ∧ la ≠ [] ∧ lb ≠ [] ∧ prodL la = prodL lb)
  ∨ (mode = ddsM ∧ ∃ la lb u v p q r, a.shape = la ++ [u, v] ∧
      b.shape = lb ++ [p, q, r] ∧ la ≠ [] ∧ lb ≠ [] ∧ prodL la = prodL lb)

/-- Equality is decidable on dispatcher results. -/
instance {ε α : Type} [DecidableEq ε] [DecidableEq α] : DecidableEq (Except ε α) :=
  fun x y =>
  match x, y with
  | .error e, .error f =>
    if h : e = f then isTrue (h ▸ rfl) else isFalse fun hc => h (Except.error.inj hc)
  | .error _, .ok _ => isFalse fun hc => Except.noConfusion hc
  | .ok _, .error _ => isFalse fun hc => Except.noConfusion hc
  | .ok u, .ok w =>
    if h : u = w then isTrue (h ▸ rfl) else isFalse fun hc => h (Except.ok.inj hc)

/-- Addresses written by the work-group at grid position `(bx, b2, _)` of the
C3 launch (the kernel reads only the first two grid coordinates, so every
`bz` runs this same write set). -/
def wgAddrsC3 (bx b2 : Nat) : List Nat :=
  (wgWrites (bufOf aC3.data) (bufOf bC3.data) rlC3 2 64 64 32 false false bx b2).map
    Prod.fst

set_option maxRecDepth 40000

theorem ebind_ok {α β : Type} (x : α) (f : α → Except SpError β) :
    (Except.ok x >>= f) = f x := rfl

theorem ebind_err {α β : Type} (e : SpError) (f : α → Except SpError β) :
    ((Except.error e : Except SpError α) >>= f) = Except.error e := rfl

theorem iteDD {α : Type} (x y : α) : (if ('d' : Char) = 'd' then x else y) = x := rfl

theorem iteSD {α : Type} (x y : α) : (if ('s' : Char) = 'd' then x else y) = y := rfl

theorem iteFT {α : Type} (x y : α) : (if false = true then x else y) = y := rfl

theorem iteTT {α : Type} (x y : α) : (if true = true then x else y) = x := rfl

theorem laySdd {α : Type} (P Q : Prop) [Decidable P] [Decidable Q] (x y : α) :
    (if sddM = sddM ∨ sddM = dsdM ∧ P ∨ sddM = ddsM ∧ Q then x else y) = x := rfl

theorem layDsdF {α : Type} (Q : Prop) [Decidable Q] (x y : α) :
    (if dsdM = sddM ∨ dsdM = dsdM ∧ false = false ∨ dsdM = ddsM ∧ Q then x else y) = x := rfl

theorem layDsdT {α : Type} (Q : Prop) [Decidable Q] (x y : α) :
    (if dsdM = sddM ∨ dsdM = dsdM ∧ true = false ∨ dsdM = ddsM ∧ Q then x else y) = y := rfl

theorem layDdsT {α : Type} (P : Prop) [Decidable P] (x y : α) :
    (if ddsM = sddM ∨ ddsM = dsdM ∧ P ∨ ddsM = ddsM ∧ true = true then x else y) = x := rfl

theorem layDdsF {α : Type} (P : Prop) [Decidable P] (x y : α) :
    (if ddsM = sddM ∨ ddsM = dsdM ∧ P ∨ ddsM = ddsM ∧ false = true then x else y) = y := rfl

theorem expSdd (a b : Tensor) (rl cl : LayoutTensors) (ta tb : Bool) :
    expectedC8 sddM a b rl cl ta tb =
      a.shape.take (a.rank - 2) ++ [rl.blocksFlat.length / 2, 32, 32] := rfl

theorem expDsd (a b : Tensor) (rl cl : LayoutTensors) (ta tb : Bool) :
    expectedC8 dsdM a b rl cl ta tb =
      b.shape.take (b.rank - 2) ++
        [((if ta then cl else rl).table.length - 1) * 32,
          lastDim b (if tb then 2 else 1)] := rfl

theorem expDds (a b : Tensor) (rl cl : LayoutTensors) (ta tb : Bool) :
    expectedC8 ddsM a b rl cl ta tb =
      a.shape.take (a.rank - 2) ++
        [lastDim a (if ta then 1 else 2),
          ((if tb then rl else cl).table.length - 1) * 32] := rfl

theorem listGetD_append (l t : List Nat) (i d : Nat) :
    listGetD (l ++ t) (l.length + i) d = listGetD t i d := by
  induction l with
  | nil => simp only [List.nil_append, List.length_nil, Nat.zero_add]
  | cons a l ih =>
    have h : (a :: l).length + i = (l.length + i) + 1 := by simp; omega
    rw [List.cons_append, h]
    exact ih

theorem sizeFromEnd_two (l : List Nat) (u v : Nat) (d : List Int) :
    Tensor.sizeFromEnd ⟨l ++ [u, v], d⟩ 2 = .ok u := by
  unfold Tensor.sizeFromEnd
  rw [if_pos]
  · have h : (Tensor.mk (l ++ [u, v]) d).shape.length - 2 = l.length + 0 := by simp
    rw [h, show (Tensor.mk (l ++ [u, v]) d).shape = l ++ [u, v] from rfl, listGetD_append]
    rfl
  · exact ⟨by omega, by simp⟩

theorem sizeFromEnd_one (l : List Nat) (u v : Nat) (d : List Int) :
    Tensor.sizeFromEnd ⟨l ++ [u, v], d⟩ 1 = .ok v := by
  unfold Tensor.sizeFromEnd
  rw [if_pos]
  · have h : (Tensor.mk (l ++ [u, v]) d).shape.length - 1 = l.length + 1 := by simp
    rw [h, show (Tensor.mk (l ++ [u, v]) d).shape = l ++ [u, v] from rfl, listGetD_append]
    rfl
  · exact ⟨by omega, by simp⟩

theorem sizeFromEnd_ite12 (l : List Nat) (u v : Nat) (d : List Int) (c : Bool) :
    Tensor.sizeFromEnd ⟨l ++ [u, v], d⟩ (if c then 1 else 2) =
      .ok (if c then v else u) := by
  cases c <;> simp [sizeFromEnd_one, sizeFromEnd_two]

theorem sizeFromEnd_ite21 (l : List Nat) (u v : Nat) (d : List Int) (c : Bool) :
    Tensor.sizeFromEnd ⟨l ++ [u, v], d⟩ (if c then 2 else 1) =
      .ok (if c then u else v) := by
  cases c <;> simp [sizeFromEnd_one, sizeFromEnd_two]

theorem lastDim_two (l : List Nat) (u v : Nat) (d : List Int) :
    lastDim ⟨l ++ [u, v], d⟩ 2 = u := by
  unfold lastDim
  have h : (Tensor.mk (l ++ [u, v]) d).shape.length - 2 = l.length + 0 := by simp
  rw [h, show (Tensor.mk (l ++ [u, v]) d).shape = l ++ [u, v] from rfl, listGetD_append]
  rfl

theorem lastDim_one (l : List Nat) (u v : Nat) (d : List Int) :
    lastDim ⟨l ++ [u, v], d⟩ 1 = v := by
  unfold lastDim
  have h : (Tensor.mk (l ++ [u, v]) d).shape.length - 1 = l.length + 1 := by simp
  rw [h, show (Tensor.mk (l ++ [u, v]) d).shape = l ++ [u, v] from rfl, listGetD_append]
  rfl

theorem lastDim_ite12 (l : List Nat) (u v : Nat) (d : List Int) (c : Bool) :
    lastDim ⟨l ++ [u, v], d⟩ (if c then 1 else 2) = (if c then v else u) := by
  cases c <;> simp [lastDim_one, lastDim_two]

theorem lastDim_ite21 (l : List Nat) (u v : Nat) (d : List Int) (c : Bool) :
    lastDim ⟨l ++ [u, v], d⟩ (if c then 2 else 1) = (if c then u else v) := by
  cases c <;> simp [lastDim_one, lastDim_two]

theorem flattenKeep_two (l : List Nat) (u v : Nat) (d : List Int) (h : l ≠ []) :
    Tensor.flattenKeep ⟨l ++ [u, v], d⟩ 2 = .ok ⟨[prodL l, u, v], d⟩ := by
  have hl : 0 < l.length := List.length_pos.mpr h
  unfold Tensor.flattenKeep
  rw [if_pos]
  · have hlen : (Tensor.mk (l ++ [u, v]) d).shape.length - 2 = l.length := by simp
    rw [hlen, show (Tensor.mk (l ++ [u, v]) d).shape = l ++ [u, v] from rfl,
      List.take_left, List.drop_left]
    rfl
  · simp
    omega

theorem flattenKeep_three (l : List Nat) (u v w : Nat) (d : List Int) (h : l ≠ []) :
    Tensor.flattenKeep ⟨l ++ [u, v, w], d⟩ 3 = .ok ⟨[prodL l, u, v, w], d⟩ := by
  have hl : 0 < l.length := List.length_pos.mpr h
  unfold Tensor.flattenKeep
  rw [if_pos]
  · have hlen : (Tensor.mk (l ++ [u, v, w]) d).shape.length - 3 = l.length := by simp
    rw [hlen, show (Tensor.mk (l ++ [u, v, w]) d).shape = l ++ [u, v, w] from rfl,
      List.take_left, List.drop_left]
    rfl
  · simp
    omega

theorem reshape_ok (t : Tensor) (s : List Nat) (h : t.numel = prodL s) :
    t.reshape s = .ok ⟨s, t.data⟩ := by
  unfold Tensor.reshape
  rw [if_pos h]

theorem sizeFromEnd_ne_oor (t : Tensor) (k : Nat) :
    t.sizeFromEnd k ≠ .error .outOfRange := by
  unfold Tensor.sizeFromEnd
  split <;> simp

theorem flattenKeep_ne_oor (t : Tensor) (k : Nat) :
    t.flattenKeep k ≠ .error .outOfRange := by
  unfold Tensor.flattenKeep
  split <;> simp

theorem reshape_ne_oor (t : Tensor) (s : List Nat) :
    t.reshape s ≠ .error .outOfRange := by
  unfold Tensor.reshape
  split <;> simp

theorem bind_ne_oor {α β : Type} (e : Except SpError α) (f : α → Except SpError β)
    (he : e ≠ .error .outOfRange) (hf : ∀ x, f x ≠ .error .outOfRange) :
    (e >>= f) ≠ .error .outOfRange := by
  cases e with
  | error err =>
    rw [ebind_err]
    intro hc
    exact he (by rw [Except.error.inj hc])
  | ok x =>
    rw [ebind_ok]
    exact hf x

theorem sizeFromEnd_isOk (t : Tensor) (k : Nat) (h1 : 1 ≤ k) (h2 : k ≤ t.shape.length) :
    ∃ v, t.sizeFromEnd k = .ok v := by
  unfold Tensor.sizeFromEnd
  rw [if_pos ⟨h1, h2⟩]
  exact ⟨_, rfl⟩

/-- C1: refuted on the code.  With the fully dense pair `aC1dense` (32x64,
block-sparse-packed as `aC1`) and `bC1` (64x32) and the full-density layout
`rlC1`, the DSD-mode call succeeds but its output entry (0,0) differs from
the ordinary dense product entry: the dispatcher's kernel ternary launches
`sparse_matmul_sdd_32x32x8_kernel` for every mode, which reads the
block-packed operand with dense addressing, so the DSD mode does not execute
a DSD computation and its result is not `matmul(A, B)` (the two integer
values differ exactly, far beyond any floating-point tolerance). -/
theorem C1_dsd_mode_not_dense_matmul :
    exceptIsOk (sparse_matmul aC1 bC1 dsdM rlC1 rlC1 false false) = true ∧
    (sparse_matmul aC1 bC1 dsdM rlC1 rlC1 false false).toOption.map
      (fun t => t.data.getD 0 0) ≠ some (denseMatmulEntry aC1dense bC1dense 64 0 0) := by
  decide

/-- C2: refuted on the code.  An SDD call with block (0,0), `size_k = 16`
(a positive multiple of 8, two K steps) and `trans_a = trans_b = false`
succeeds, yet its output entry (0,0) is not the corresponding entry of the
standard product of A's 32-row band with B's 32-column band: the second
K step consumes slabs staged by the in-loop prefetch, whose arguments are
rotated (see C5), so they address the wrong data.  For `size_k = 8`
(a single step, priming prefetch only) the claim's equation does hold. -/
theorem C2_sdd_block_not_product_multistep :
    exceptIsOk (sparse_matmul aC2 bC2 sddM rlC2 rlC2 false false) = true ∧
    (sparse_matmul aC2 bC2 sddM rlC2 rlC2 false false).toOption.map
      (fun t => t.data.getD 0 0) ≠ some (denseMatmulEntry aC2dense bC2dense 16 0 0) := by
  decide

/-- C3: refuted on the code.  For the DSD call on `aC3`/`bC3` (batch 1,
`total_m = total_n = 64`, two sparse blocks) the dispatcher sizes the grid
as `(num_batches, ceil(m/32), ceil(n/32)) = (1, 2, 2)`, but it launches the
SDD kernel, which interprets `blockIdx.x` as the sparse-block index,
`blockIdx.y` as the batch and ignores `blockIdx.z`.  Hence the two grid
cells `(0, b2, 0)` and `(0, b2, 1)` are distinct work-groups executing the
same write set — address 0 is written by two work-groups — while address
1024 of the 4096-element output is written by no work-group at all: the
writes do not partition the output buffer. -/
theorem C3_dsd_coverage_not_partition :
    launchGrid dsdM 2 1 64 64 = (1, 2, 2) ∧
    0 ∈ wgAddrsC3 0 0 ∧
    (∀ bx, bx < 1 → ∀ b2, b2 < 2 → ¬ 1024 ∈ wgAddrsC3 bx b2) ∧
    (sparse_matmul aC3 bC3 dsdM rlC3 rlC3 false false).toOption.map Tensor.numel
      = some 4096 := by
  decide

/-- C4: refuted on the code.  For the unrecognized three-letter mode
selector "xyz" the dispatcher raises no error at all: it falls through to
the column layout, derives sizes from the mode characters, allocates an
output, launches the kernel and returns a buffer — the call succeeds
instead of failing before allocation. -/
theorem C4_unrecognized_mode_not_rejected :
    exceptIsOk (sparse_matmul aC4 bC4 ['x', 'y', 'z'] rlE rlE false false) = true := by
  decide

/-- C5: refuted on the code.  The priming prefetch passes
`(row_origin, col_origin, leading_dimension)` — for non-transposed A at
`m = 0`, `size_m = 32`, `size_k = 16` that is `(0, 0, 16)` — but the
in-loop prefetch for the step at K-offset `k + 8 = 8` passes
`(16, 0, 8) = (leading_dimension, row_origin, col_origin)`, not the claimed
`(m, k + 8, size_k) = (0, 8, 16)`; the transposed-A and both B variants are
rotated the same way, so the in-loop calls do not follow the priming calls'
argument order. -/
theorem C5_inloop_prefetch_argument_order :
    primeArgsA 0 32 16 false = (0, 0, 16) ∧
    loopArgsA 0 0 32 16 false = (16, 0, 8) ∧
    loopArgsA 0 0 32 16 false ≠ (0, 0 + 8, 16) ∧
    loopArgsA 0 0 32 16 true ≠ (0 + 8, 0, 32) ∧
    loopArgsB 0 0 32 16 false ≠ (0 + 8, 0, 32) ∧
    loopArgsB 0 0 32 16 true ≠ (0, 0 + 8, 16) := by
  decide

/-- C6 counterexample: the claim's letter assignment (position 0 = A's
density, 1 = B's, 2 = output's) is false at a concrete recognized call.
Under that assignment, mode "sdd" would denote a sparse A, dense B and
dense output, so the dispatcher would have to behave like
`dispatchByDensity` with `(outDense, aDense, bDense)` taken from positions
`(2, 0, 1)`; at this input the real dispatcher returns a block-form tensor
while the claim-mapped dispatch fails to flatten the rank-3 operand A as a
sparse operand — the two results differ. -/
theorem C6_counterexample_first_letter_not_A :
    sparse_matmul aC6 bC6 sddM rlC6 rlC6 false false ≠
      dispatchByDensity aC6 bC6 (modeCharD sddM 2 == 'd') (modeCharD sddM 0 == 'd')
        (modeCharD sddM 1 == 'd') rlC6 rlC6 false false := by
  decide

/-- C6 as amended: in the three-letter mode selector the first letter gives
the OUTPUT's density, the second operand A's and the third operand B's: for
every recognized mode and all inputs, the dispatcher coincides with
`dispatchByDensity` applied to the density flags read from positions 0, 1
and 2 as (output, A, B) respectively. -/
theorem C6_mode_letters_out_a_b (a b : Tensor) (rl cl : LayoutTensors)
    (ta tb : Bool) (mode : List Char)
    (h : mode = sddM ∨ mode = dsdM ∨ mode = ddsM) :
    sparse_matmul a b mode rl cl ta tb =
      dispatchByDensity a b (modeCharD mode 0 == 'd') (modeCharD mode 1 == 'd')
        (modeCharD mode 2 == 'd') rl cl ta tb := by
  rcases h with h | h | h <;> subst h
  · rfl
  · cases ta <;> rfl
  · cases tb <;> rfl

/-- Witness for C6: the amended correspondence instantiated at the
recognized mode "dsd" with concrete inputs. -/
theorem C6_mode_letters_out_a_b_witness :
    sparse_matmul aC6 bC6 dsdM rlC6 rlC6 false false =
      dispatchByDensity aC6 bC6 (modeCharD dsdM 0 == 'd') (modeCharD dsdM 1 == 'd')
        (modeCharD dsdM 2 == 'd') rlC6 rlC6 false false :=
  C6_mode_letters_out_a_b aC6 bC6 rlC6 rlC6 false false dsdM (Or.inr (Or.inl rfl))

/-- C7: refuted on the code.  `aC7` has reduction extent 16 while `bC7` has
reduction extent 64 — incompatible with SDD and `trans_a = trans_b = false`
— yet the dispatcher performs no comparison of the two operands' extents:
it derives `size_k` from B alone, launches the kernel and returns a buffer
instead of surfacing a precondition failure before launch. -/
theorem C7_reduction_mismatch_not_detected :
    aC7.sizeFromEnd 1 = .ok 16 ∧ bC7.sizeFromEnd 2 = .ok 64 ∧
    exceptIsOk (sparse_matmul aC7 bC7 sddM rlE rlE false false) = true := by
  decide

/-- C8: confirmed.  For every valid call (recognized mode, operand ranks as
the mode requires with at least one batch axis, and agreeing flattened
batch sizes) the dispatcher succeeds and the returned tensor's shape is the
dense operand's leading batch dimensions followed by the mode-specific
trailing shape: `(num_blocks, 32, 32)` with `num_blocks` half the
block-list length for SDD, and `(total_m, total_n)` for DSD/DDS with the
sparse dimension `(table length - 1) * 32` and the dense dimensions read
from the trailing two axes, row/column swapped under the transpose flags. -/
theorem C8_output_shape (a b : Tensor) (rl cl : LayoutTensors) (ta tb : Bool)
    (mode : List Char) (h : C8Valid mode a b) :
    ∃ t, sparse_matmul a b mode rl cl ta tb = .ok t ∧
      t.shape = expectedC8 mode a b rl cl ta tb := by
  obtain ⟨sa, da⟩ := a
  obtain ⟨sb, db⟩ := b
  rcases h with ⟨hm, ⟨la, au, av, ha, hla⟩, ⟨lb, bu, bv, hb, hlb⟩⟩ |
    ⟨hm, la, lb, p, q, r, bu, bv, ha, hb, hla, hlb, hprod⟩ |
    ⟨hm, la, lb, au, av, p, q, r, ha, hb, hla, hlb, hprod⟩ <;> subst hm
  · replace ha : sa = la ++ [au, av] := ha
    replace hb : sb = lb ++ [bu, bv] := hb
    subst ha
    subst hb
    dsimp only [sparse_matmul, charAt, listNth, ebind_ok, iteDD, iteSD, laySdd]
    rw [sizeFromEnd_ite12]
    dsimp only [ebind_ok]
    rw [sizeFromEnd_ite21]
    dsimp only [ebind_ok]
    rw [sizeFromEnd_ite12]
    dsimp only [ebind_ok]
    rw [flattenKeep_two la au av da hla]
    dsimp only [ebind_ok]
    rw [flattenKeep_two lb bu bv db hlb]
    dsimp only [ebind_ok, List.headD]
    rw [reshape_ok]
    · refine ⟨_, rfl, ?_⟩
      rw [expSdd]
    · dsimp only [Tensor.numel, Tensor.rank]
      have ht : (la ++ [au, av]).length - 2 = la.length := by simp
      rw [ht, List.take_left]
      simp [prodL, List.prod_append]
  · replace ha : sa = la ++ [p, q, r] := ha
    replace hb : sb = lb ++ [bu, bv] := hb
    subst ha
    subst hb
    cases ta
    all_goals
      dsimp only [sparse_matmul, charAt, listNth, ebind_ok, iteDD, iteSD, iteFT, iteTT,
        layDsdF, layDsdT]
      rw [sizeFromEnd_ite21]
      dsimp only [ebind_ok]
      rw [sizeFromEnd_ite12]
      dsimp only [ebind_ok]
      rw [flattenKeep_three la p q r da hla]
      dsimp only [ebind_ok]
      rw [flattenKeep_two lb bu bv db hlb]
      dsimp only [ebind_ok, List.headD]
      rw [reshape_ok]
    · refine ⟨_, rfl, ?_⟩
      rw [expDsd, lastDim_ite21, iteFT]
    · dsimp only [Tensor.numel, Tensor.rank]
      have ht : (lb ++ [bu, bv]).length - 2 = lb.length := by simp
      rw [ht, List.take_left]
      have hp : la.prod = lb.prod := hprod
      simp [prodL, List.prod_append, hp]
    · refine ⟨_, rfl, ?_⟩
      rw [expDsd, lastDim_ite21, iteTT]
    · dsimp only [Tensor.numel, Tensor.rank]
      have ht : (lb ++ [bu, bv]).length - 2 = lb.length := by simp
      rw [ht, List.take_left]
      have hp : la.prod = lb.prod := hprod
      simp [prodL, List.prod_append, hp]
  · replace ha : sa = la ++ [au, av] := ha
    replace hb : sb = lb ++ [p, q, r] := hb
    subst ha
    subst hb
    cases tb
    all_goals
      dsimp only [sparse_matmul, charAt, listNth, ebind_ok, iteDD, iteSD, iteFT, iteTT,
        layDdsF, layDdsT]
      rw [sizeFromEnd_ite12]
      dsimp only [ebind_ok]
      rw [sizeFromEnd_ite21]
      dsimp only [ebind_ok]
      rw [flattenKeep_two la au av da hla]
      dsimp only [ebind_ok]
      rw [flattenKeep_three lb p q r db hlb]
      dsimp only [ebind_ok, List.headD]
      rw [reshape_ok]
    · refine ⟨_, rfl, ?_⟩
      rw [expDds, lastDim_ite12, iteFT]
    · dsimp only [Tensor.numel, Tensor.rank]
      have ht : (la ++ [au, av]).length - 2 = la.length := by simp
      rw [ht, List.take_left]
      simp [prodL, List.prod_append]
    · refine ⟨_, rfl, ?_⟩
      rw [expDds, lastDim_ite12, iteTT]
    · dsimp only [Tensor.numel, Tensor.rank]
      have ht : (la ++ [au, av]).length - 2 = la.length := by simp
      rw [ht, List.take_left]
      simp [prodL, List.prod_append]

/-- Witness for C8: an SDD call on concrete rank-3 operands. -/
theorem C8_output_shape_witness :
    C8Valid sddM aC2 bC2 ∧
    ∃ t, sparse_matmul aC2 bC2 sddM rlC2 rlC2 false false = .ok t ∧
      t.shape = expectedC8 sddM aC2 bC2 rlC2 rlC2 false false :=
  have hv : C8Valid sddM aC2 bC2 :=
    Or.inl ⟨rfl, ⟨[1], 32, 16, rfl, by decide⟩, ⟨[1], 16, 32, rfl, by decide⟩⟩
  ⟨hv, C8_output_shape aC2 bC2 rlC2 rlC2 false false sddM hv⟩

/-- C9: confirmed.  For every tensor whose shape splits as a nonempty list
of leading batch dimensions followed by trailing matrix dimensions, the
dispatcher's batch flattening succeeds, the flattened batch extent is the
product of the original leading dimensions, and the later reshape back
through the original shape returns exactly the original tensor (same rank,
same extents, same data) — flattening and the reshape are inverses. -/
theorem C9_shape_roundtrip (t : Tensor) (lead tail : List Nat)
    (h : t.shape = lead ++ tail) (hl : lead ≠ []) :
    ∃ t', t.flattenKeep tail.length = .ok t' ∧
      t'.shape = [prodL lead] ++ tail ∧
      t'.shape.headD 0 = prodL lead ∧
      t'.reshape t.shape = .ok t := by
  obtain ⟨s, d⟩ := t
  replace h : s = lead ++ tail := h
  subst h
  have hl' : 0 < lead.length := List.length_pos.mpr hl
  refine ⟨⟨[prodL lead] ++ tail, d⟩, ?_, rfl, rfl, ?_⟩
  · unfold Tensor.flattenKeep
    rw [if_pos]
    · have hlen : (Tensor.mk (lead ++ tail) d).shape.length - tail.length = lead.length := by
        simp
      rw [hlen, show (Tensor.mk (lead ++ tail) d).shape = lead ++ tail from rfl,
        List.take_left, List.drop_left]
    · simp
      omega
  · unfold Tensor.reshape
    rw [if_pos]
    · show Tensor.numel ⟨[prodL lead] ++ tail, d⟩ =
        prodL (Tensor.mk (lead ++ tail) d).shape
      simp [Tensor.numel, prodL, List.prod_append]

/-- Witness for C9: the round trip on a rank-4 tensor with batch shape
`[2, 3]`. -/
theorem C9_shape_roundtrip_witness :
    (Tensor.mk [2, 3, 4, 5] []).shape = [2, 3] ++ [4, 5] ∧
    ∃ t', (Tensor.mk [2, 3, 4, 5] []).flattenKeep ([4, 5] : List Nat).length = .ok t' ∧
      t'.shape = [prodL [2, 3]] ++ [4, 5] ∧
      t'.shape.headD 0 = prodL [2, 3] ∧
      t'.reshape (Tensor.mk [2, 3, 4, 5] []).shape = .ok (Tensor.mk [2, 3, 4, 5] []) :=
  ⟨rfl, C9_shape_roundtrip ⟨[2, 3, 4, 5], []⟩ [2, 3] [4, 5] rfl (by decide)⟩

/-- C10 counterexample: a call with the 2-character mode "sd" and a rank-1
operand A does not throw `std::out_of_range`: the second character is 'd',
so `a.size(-2)` is evaluated before `mode.at(2)`, and the tensor library's
dimension-range error fires first. -/
theorem C10_counterexample_dim_error_first :
    sparse_matmul aC10 bC10 ['s', 'd'] rlE rlE false false = .error .dimError ∧
    sparse_matmul aC10 bC10 ['s', 'd'] rlE rlE false false ≠ .error .outOfRange := by
  decide

/-- C10 as amended: for every call with a mode string shorter than 3
characters whose interleaved tensor-dimension reads cannot fail — in
particular whenever operand A has rank at least 2 — the dispatcher throws
the out-of-range error of `std::string::at` before any output is produced,
and for every mode string of 3 or more characters the position reads
succeed: no call returns the out-of-range error, whether or not the mode is
recognized. -/
theorem C10_short_mode_out_of_range (a b : Tensor) (rl cl : LayoutTensors)
    (ta tb : Bool) (mode : List Char) :
    (mode.length < 3 → 2 ≤ a.rank →
      sparse_matmul a b mode rl cl ta tb = .error .outOfRange) ∧
    (3 ≤ mode.length →
      sparse_matmul a b mode rl cl ta tb ≠ .error .outOfRange) := by
  constructor
  · intro hlen hrank
    have hr : 2 ≤ a.shape.length := hrank
    rcases mode with _ | ⟨c, _ | ⟨c', _ | ⟨c'', rest⟩⟩⟩
    · rfl
    · rfl
    · by_cases hc : c' = 'd'
      · subst hc
        obtain ⟨vm, hvm⟩ := sizeFromEnd_isOk a (if ta then 1 else 2)
          (by cases ta <;> simp) (by cases ta <;> simp <;> omega)
        dsimp only [sparse_matmul, charAt, listNth, ebind_ok, iteDD]
        rw [hvm]
        rfl
      · dsimp only [sparse_matmul, charAt, listNth, ebind_ok]
        rw [if_neg hc]
        rfl
    · exfalso
      simp at hlen
      omega
  · intro hlen
    rcases mode with _ | ⟨c0, _ | ⟨c1, _ | ⟨c2, rest⟩⟩⟩
    · simp at hlen
    · simp at hlen
    · simp at hlen
    · dsimp only [sparse_matmul, charAt, listNth, ebind_ok]
      refine bind_ne_oor _ _ ?_ fun sm => ?_
      · split
        · exact sizeFromEnd_ne_oor _ _
        · simp
      refine bind_ne_oor _ _ ?_ fun sn => ?_
      · split
        · exact sizeFromEnd_ne_oor _ _
        · simp
      refine bind_ne_oor _ _ ?_ fun sk => ?_
      · split <;> exact sizeFromEnd_ne_oor _ _
      refine bind_ne_oor _ _ (flattenKeep_ne_oor _ _) fun a2 => ?_
      refine bind_ne_oor _ _ (flattenKeep_ne_oor _ _) fun b2 => ?_
      exact reshape_ne_oor _ _

/-- Witness for C10: the short-mode error at a rank-3 operand, and a
3-character call that does not produce the out-of-range error. -/
theorem C10_short_mode_out_of_range_witness :
    sparse_matmul bC10 bC10 ['s', 'd'] rlE rlE false false = .error .outOfRange ∧
    sparse_matmul bC10 bC10 sddM rlE rlE false false ≠ .error .outOfRange :=
  ⟨(C10_short_mode_out_of_range bC10 bC10 rlE rlE false false ['s', 'd']).1
      (by decide) (by decide),
   (C10_short_mode_out_of_range bC10 bC10 rlE rlE false false sddM).2 (by decide)⟩

end BlockSparse
